import Mathlib

/-!
Shallow embedding of the resource-binding and synchronization layer of the
Vulkan-Samples framework (files `framework/common/vk_common.cpp`,
`framework/core/descriptor_set_layout.cpp`, `framework/core/pipeline_layout.cpp`),
with theorems settling the specification claims about it.

Machine integers (`uint32_t`) are modelled as `Nat` with explicit `% 2^32`
at the points where C++ unsigned arithmetic can wrap.  Fallible C++ code
(`throw`) is modelled with `Except`.  `std::map`/`std::unordered_map` are
modelled as association lists with unique keys; `emplace` inserts only when
the key is absent, exactly as in C++.
-/

namespace vkb

/-! ## Access flags and shader stage flags (Vulkan bit values) -/

def eHostWrite : Nat := 0x4000
def eColorAttachmentWrite : Nat := 0x100
def eDepthStencilAttachmentWrite : Nat := 0x400
def eTransferRead : Nat := 0x800
def eTransferWrite : Nat := 0x1000
def eShaderRead : Nat := 0x20

def eVertex : Nat := 0x1
def eFragment : Nat := 0x10
def eCompute : Nat := 0x20

/-! ## Image layouts

The layouts this repository's code names, plus representatives of the
"any other layout" default branch of `set_image_layout` (`eGeneral`,
`ePresentSrcKHR`). -/

inductive ImageLayout where
  | eUndefined
  | ePreinitialized
  | eColorAttachmentOptimal
  | eDepthStencilAttachmentOptimal
  | eTransferSrcOptimal
  | eTransferDstOptimal
  | eShaderReadOnlyOptimal
  | eGeneral
  | ePresentSrcKHR
  deriving DecidableEq

/-- The first `switch (old_layout)` of `set_image_layout`
(vk_common.cpp lines 391-439): the source access mask assigned from the
old layout; the default branch leaves the barrier's zero-initialized mask. -/
def src_access_mask_table (old_layout : ImageLayout) : Nat :=
  match old_layout with
  | .eUndefined => 0
  | .ePreinitialized => eHostWrite
  | .eColorAttachmentOptimal => eColorAttachmentWrite
  | .eDepthStencilAttachmentOptimal => eDepthStencilAttachmentWrite
  | .eTransferSrcOptimal => eTransferRead
  | .eTransferDstOptimal => eTransferWrite
  | .eShaderReadOnlyOptimal => eShaderRead
  | _ => 0

structure AccessMasks where
  srcAccessMask : Nat
  dstAccessMask : Nat
  deriving DecidableEq

/-- The access-mask derivation of `set_image_layout`
(vk_common.cpp lines 391-481): the first switch sets `srcAccessMask` from
`old_layout`; the second switch sets `dstAccessMask` from `new_layout`,
ORs into the (zero-initialized) destination mask in the depth/stencil case,
and in the `eShaderReadOnlyOptimal` case backfills an empty source mask
with host-write | transfer-write. -/
def derive_access_masks (old_layout new_layout : ImageLayout) : AccessMasks :=
  let src := src_access_mask_table old_layout
  let dst : Nat := 0
  match new_layout with
  | .eTransferDstOptimal => ⟨src, eTransferWrite⟩
  | .eTransferSrcOptimal => ⟨src, eTransferRead⟩
  | .eColorAttachmentOptimal => ⟨src, eColorAttachmentWrite⟩
  | .eDepthStencilAttachmentOptimal => ⟨src, dst ||| eDepthStencilAttachmentWrite⟩
  | .eShaderReadOnlyOptimal =>
      ⟨if src = 0 then eHostWrite ||| eTransferWrite else src, eShaderRead⟩
  | _ => ⟨src, dst⟩

/-! ## Pixel formats (the format enumerators this repository's code names)
and the format classifier -/

inductive Format where
  | eUndefined
  | eR4G4UnormPack8
  | eR4G4B4A4UnormPack16
  | eB4G4R4A4UnormPack16
  | eR5G6B5UnormPack16
  | eB5G6R5UnormPack16
  | eR5G5B5A1UnormPack16
  | eB5G5R5A1UnormPack16
  | eA1R5G5B5UnormPack16
  | eR8Unorm
  | eR8Snorm
  | eR8Uscaled
  | eR8Sscaled
  | eR8Uint
  | eR8Sint
  | eR8Srgb
  | eR8G8Unorm
  | eR8G8Snorm
  | eR8G8Uscaled
  | eR8G8Sscaled
  | eR8G8Uint
  | eR8G8Sint
  | eR8G8Srgb
  | eR8G8B8Unorm
  | eR8G8B8Snorm
  | eR8G8B8Uscaled
  | eR8G8B8Sscaled
  | eR8G8B8Uint
  | eR8G8B8Sint
  | eR8G8B8Srgb
  | eB8G8R8Unorm
  | eB8G8R8Snorm
  | eB8G8R8Uscaled
  | eB8G8R8Sscaled
  | eB8G8R8Uint
  | eB8G8R8Sint
  | eB8G8R8Srgb
  | eR8G8B8A8Unorm
  | eR8G8B8A8Snorm
  | eR8G8B8A8Uscaled
  | eR8G8B8A8Sscaled
  | eR8G8B8A8Uint
  | eR8G8B8A8Sint
  | eR8G8B8A8Srgb
  | eB8G8R8A8Unorm
  | eB8G8R8A8Snorm
  | eB8G8R8A8Uscaled
  | eB8G8R8A8Sscaled
  | eB8G8R8A8Uint
  | eB8G8R8A8Sint
  | eB8G8R8A8Srgb
  | eA8B8G8R8UnormPack32
  | eA8B8G8R8SnormPack32
  | eA8B8G8R8UscaledPack32
  | eA8B8G8R8SscaledPack32
  | eA8B8G8R8UintPack32
  | eA8B8G8R8SintPack32
  | eA8B8G8R8SrgbPack32
  | eA2R10G10B10UnormPack32
  | eA2R10G10B10SnormPack32
  | eA2R10G10B10UscaledPack32
  | eA2R10G10B10SscaledPack32
  | eA2R10G10B10UintPack32
  | eA2R10G10B10SintPack32
  | eA2B10G10R10UnormPack32
  | eA2B10G10R10SnormPack32
  | eA2B10G10R10UscaledPack32
  | eA2B10G10R10SscaledPack32
  | eA2B10G10R10UintPack32
  | eA2B10G10R10SintPack32
  | eR16Unorm
  | eR16Snorm
  | eR16Uscaled
  | eR16Sscaled
  | eR16Uint
  | eR16Sint
  | eR16Sfloat
  | eR16G16Unorm
  | eR16G16Snorm
  | eR16G16Uscaled
  | eR16G16Sscaled
  | eR16G16Uint
  | eR16G16Sint
  | eR16G16Sfloat
  | eR16G16B16Unorm
  | eR16G16B16Snorm
  | eR16G16B16Uscaled
  | eR16G16B16Sscaled
  | eR16G16B16Uint
  | eR16G16B16Sint
  | eR16G16B16Sfloat
  | eR16G16B16A16Unorm
  | eR16G16B16A16Snorm
  | eR16G16B16A16Uscaled
  | eR16G16B16A16Sscaled
  | eR16G16B16A16Uint
  | eR16G16B16A16Sint
  | eR16G16B16A16Sfloat
  | eR32Uint
  | eR32Sint
  | eR32Sfloat
  | eR32G32Uint
  | eR32G32Sint
  | eR32G32Sfloat
  | eR32G32B32Uint
  | eR32G32B32Sint
  | eR32G32B32Sfloat
  | eR32G32B32A32Uint
  | eR32G32B32A32Sint
  | eR32G32B32A32Sfloat
  | eR64Uint
  | eR64Sint
  | eR64Sfloat
  | eR64G64Uint
  | eR64G64Sint
  | eR64G64Sfloat
  | eR64G64B64Uint
  | eR64G64B64Sint
  | eR64G64B64Sfloat
  | eR64G64B64A64Uint
  | eR64G64B64A64Sint
  | eR64G64B64A64Sfloat
  | eB10G11R11UfloatPack32
  | eE5B9G9R9UfloatPack32
  | eD16Unorm
  | eX8D24UnormPack32
  | eD32Sfloat
  | eS8Uint
  | eD16UnormS8Uint
  | eD24UnormS8Uint
  | eD32SfloatS8Uint
  deriving DecidableEq

/-- `get_bits_per_pixel` (vk_common.cpp lines 125-291): total bits per pixel
as a signed integer; the `eUndefined`/default branch returns -1.  The C++
switch is total over the enumeration, so the function never throws. -/
def get_bits_per_pixel (format : Format) : Int :=
  match format with
  | .eR4G4UnormPack8 => 8
  | .eR4G4B4A4UnormPack16 | .eB4G4R4A4UnormPack16 | .eR5G6B5UnormPack16
  | .eB5G6R5UnormPack16 | .eR5G5B5A1UnormPack16 | .eB5G5R5A1UnormPack16
  | .eA1R5G5B5UnormPack16 => 16
  | .eR8Unorm | .eR8Snorm | .eR8Uscaled | .eR8Sscaled | .eR8Uint | .eR8Sint
  | .eR8Srgb => 8
  | .eR8G8Unorm | .eR8G8Snorm | .eR8G8Uscaled | .eR8G8Sscaled | .eR8G8Uint
  | .eR8G8Sint | .eR8G8Srgb => 16
  | .eR8G8B8Unorm | .eR8G8B8Snorm | .eR8G8B8Uscaled | .eR8G8B8Sscaled
  | .eR8G8B8Uint | .eR8G8B8Sint | .eR8G8B8Srgb | .eB8G8R8Unorm | .eB8G8R8Snorm
  | .eB8G8R8Uscaled | .eB8G8R8Sscaled | .eB8G8R8Uint | .eB8G8R8Sint
  | .eB8G8R8Srgb => 24
  | .eR8G8B8A8Unorm | .eR8G8B8A8Snorm | .eR8G8B8A8Uscaled | .eR8G8B8A8Sscaled
  | .eR8G8B8A8Uint | .eR8G8B8A8Sint | .eR8G8B8A8Srgb | .eB8G8R8A8Unorm
  | .eB8G8R8A8Snorm | .eB8G8R8A8Uscaled | .eB8G8R8A8Sscaled | .eB8G8R8A8Uint
  | .eB8G8R8A8Sint | .eB8G8R8A8Srgb | .eA8B8G8R8UnormPack32
  | .eA8B8G8R8SnormPack32 | .eA8B8G8R8UscaledPack32 | .eA8B8G8R8SscaledPack32
  | .eA8B8G8R8UintPack32 | .eA8B8G8R8SintPack32 | .eA8B8G8R8SrgbPack32 => 32
  | .eA2R10G10B10UnormPack32 | .eA2R10G10B10SnormPack32
  | .eA2R10G10B10UscaledPack32 | .eA2R10G10B10SscaledPack32
  | .eA2R10G10B10UintPack32 | .eA2R10G10B10SintPack32
  | .eA2B10G10R10UnormPack32 | .eA2B10G10R10SnormPack32
  | .eA2B10G10R10UscaledPack32 | .eA2B10G10R10SscaledPack32
  | .eA2B10G10R10UintPack32 | .eA2B10G10R10SintPack32 => 32
  | .eR16Unorm | .eR16Snorm | .eR16Uscaled | .eR16Sscaled | .eR16Uint
  | .eR16Sint | .eR16Sfloat => 16
  | .eR16G16Unorm | .eR16G16Snorm | .eR16G16Uscaled | .eR16G16Sscaled
  | .eR16G16Uint | .eR16G16Sint | .eR16G16Sfloat => 32
  | .eR16G16B16Unorm | .eR16G16B16Snorm | .eR16G16B16Uscaled
  | .eR16G16B16Sscaled | .eR16G16B16Uint | .eR16G16B16Sint
  | .eR16G16B16Sfloat => 48
  | .eR16G16B16A16Unorm | .eR16G16B16A16Snorm | .eR16G16B16A16Uscaled
  | .eR16G16B16A16Sscaled | .eR16G16B16A16Uint | .eR16G16B16A16Sint
  | .eR16G16B16A16Sfloat => 64
  | .eR32Uint | .eR32Sint | .eR32Sfloat => 32
  | .eR32G32Uint | .eR32G32Sint | .eR32G32Sfloat => 64
  | .eR32G32B32Uint | .eR32G32B32Sint | .eR32G32B32Sfloat => 96
  | .eR32G32B32A32Uint | .eR32G32B32A32Sint | .eR32G32B32A32Sfloat => 128
  | .eR64Uint | .eR64Sint | .eR64Sfloat => 64
  | .eR64G64Uint | .eR64G64Sint | .eR64G64Sfloat => 128
  | .eR64G64B64Uint | .eR64G64B64Sint | .eR64G64B64Sfloat => 192
  | .eR64G64B64A64Uint | .eR64G64B64A64Sint | .eR64G64B64A64Sfloat => 256
  | .eB10G11R11UfloatPack32 => 32
  | .eE5B9G9R9UfloatPack32 => 32
  | .eD16Unorm => 16
  | .eX8D24UnormPack32 => 32
  | .eD32Sfloat => 32
  | .eS8Uint => 8
  | .eD16UnormS8Uint => 24
  | .eD24UnormS8Uint => 32
  | .eD32SfloatS8Uint => 40
  | .eUndefined => -1

/-! ## Shader resource types and descriptor types -/

inductive ShaderResourceType where
  | Input
  | InputAttachment
  | Output
  | Image
  | ImageSampler
  | ImageStorage
  | Sampler
  | BufferUniform
  | BufferStorage
  | PushConstant
  | SpecializationConstant
  deriving DecidableEq

inductive DescriptorType where
  | eSampler
  | eCombinedImageSampler
  | eSampledImage
  | eStorageImage
  | eUniformBuffer
  | eStorageBuffer
  | eUniformBufferDynamic
  | eStorageBufferDynamic
  | eInputAttachment
  deriving DecidableEq

/-- `find_descriptor_type` (descriptor_set_layout.cpp lines 27-70); the
default branch throws `std::runtime_error`, modelled as `Except.error`. -/
def find_descriptor_type (resource_type : ShaderResourceType) (dynamic : Bool) :
    Except String DescriptorType :=
  match resource_type with
  | .InputAttachment => .ok .eInputAttachment
  | .Image => .ok .eSampledImage
  | .ImageSampler => .ok .eCombinedImageSampler
  | .ImageStorage => .ok .eStorageImage
  | .Sampler => .ok .eSampler
  | .BufferUniform =>
      if dynamic then .ok .eUniformBufferDynamic else .ok .eUniformBuffer
  | .BufferStorage =>
      if dynamic then .ok .eStorageBufferDynamic else .ok .eStorageBuffer
  | _ => .error "No conversion possible for the shader resource type."

/-! ## Shader resources, descriptor set layouts -/

structure ShaderResource where
  name : String
  type : ShaderResourceType
  binding : Nat
  array_size : Nat
  offset : Nat
  size : Nat
  stages : Nat
  deriving DecidableEq

/-- The skip test of the `DescriptorSetLayout` constructor
(descriptor_set_layout.cpp lines 79-85): shader resources without a
binding point are skipped. -/
def skips_binding (t : ShaderResourceType) : Bool :=
  t == .Input || t == .Output || t == .PushConstant || t == .SpecializationConstant

structure DescriptorSetLayoutBinding where
  binding : Nat
  descriptorCount : Nat
  descriptorType : DescriptorType
  stageFlags : Nat
  deriving DecidableEq

/-- Conversion of a `ShaderResource` to a `DescriptorSetLayoutBinding`
(descriptor_set_layout.cpp lines 91-96). -/
def layout_binding_of (resource : ShaderResource) (descriptor_type : DescriptorType) :
    DescriptorSetLayoutBinding :=
  { binding := resource.binding
    descriptorCount := resource.array_size
    descriptorType := descriptor_type
    stageFlags := resource.stages }

/-- C++ `std::map`/`std::unordered_map` `emplace`: insert only when the key
is absent, keep the existing mapped value otherwise. -/
def emplace {α β : Type} [BEq α] (m : List (α × β)) (k : α) (v : β) : List (α × β) :=
  if (m.lookup k).isSome then m else (k, v) :: m

structure DescriptorSetLayoutState where
  bindings : List DescriptorSetLayoutBinding
  bindings_lookup : List (Nat × DescriptorSetLayoutBinding)
  resources_lookup : List (String × Nat)
  deriving DecidableEq

/-- The resource loop of the `DescriptorSetLayout` constructor
(descriptor_set_layout.cpp lines 76-104): skip non-slot resources, convert
the kind (which can throw), append to `bindings`, and `emplace` into the
two lookup maps. -/
def build_loop (st : DescriptorSetLayoutState) (resource_set : List ShaderResource)
    (use_dynamic_resources : Bool) : Except String DescriptorSetLayoutState :=
  match resource_set with
  | [] => .ok st
  | resource :: rest =>
    if skips_binding resource.type then
      build_loop st rest use_dynamic_resources
    else
      match find_descriptor_type resource.type use_dynamic_resources with
      | .error e => .error e
      | .ok descriptor_type =>
        let layout_binding := layout_binding_of resource descriptor_type
        build_loop
          { bindings := st.bindings ++ [layout_binding]
            bindings_lookup := emplace st.bindings_lookup resource.binding layout_binding
            resources_lookup := emplace st.resources_lookup resource.name resource.binding }
          rest use_dynamic_resources

/-- `DescriptorSetLayout::DescriptorSetLayout` (descriptor_set_layout.cpp
lines 73-113), restricted to its observable state (the device-handle
creation at the end is external). -/
def DescriptorSetLayout_construct (resource_set : List ShaderResource)
    (use_dynamic_resources : Bool) : Except String DescriptorSetLayoutState :=
  build_loop ⟨[], [], []⟩ resource_set use_dynamic_resources

/-- `DescriptorSetLayout::get_layout_binding(uint32_t)`
(descriptor_set_layout.cpp lines 144-154): lookup by binding index,
`nullptr` (here `none`) when absent. -/
def get_layout_binding (st : DescriptorSetLayoutState) (binding_index : Nat) :
    Option DescriptorSetLayoutBinding :=
  st.bindings_lookup.lookup binding_index

/-- `DescriptorSetLayout::get_layout_binding(const std::string &)`
(descriptor_set_layout.cpp lines 156-166): resolve the name to a binding
index, then delegate to the index lookup. -/
def get_layout_binding_by_name (st : DescriptorSetLayoutState) (name : String) :
    Option DescriptorSetLayoutBinding :=
  match st.resources_lookup.lookup name with
  | none => none
  | some b => get_layout_binding st b

/-! Derived characterizations of the constructor loop, used to state the
claims about it. -/

/-- The layout binding a single resource contributes (`none` when the kind
conversion throws). -/
def entry_of (resource : ShaderResource) (use_dynamic_resources : Bool) :
    Option DescriptorSetLayoutBinding :=
  (find_descriptor_type resource.type use_dynamic_resources).toOption.map
    (layout_binding_of resource)

/-- The entry of the earliest slot-occupying resource with the given
binding value. -/
def first_binding_entry (resource_set : List ShaderResource) (use_dynamic_resources : Bool)
    (b : Nat) : Option DescriptorSetLayoutBinding :=
  (resource_set.find? (fun r => !skips_binding r.type && r.binding == b)).bind
    (fun r => entry_of r use_dynamic_resources)

/-- The binding value registered by the earliest slot-occupying resource
with the given name. -/
def first_name_binding (resource_set : List ShaderResource) (n : String) : Option Nat :=
  (resource_set.find? (fun r => !skips_binding r.type && r.name == n)).map
    (fun r => r.binding)

/-- The ordered binding list the constructor produces: one entry per
slot-occupying resource, in input order (duplicates appended). -/
def constructed_bindings (resource_set : List ShaderResource)
    (use_dynamic_resources : Bool) : List DescriptorSetLayoutBinding :=
  resource_set.filterMap
    (fun r => if skips_binding r.type then none else entry_of r use_dynamic_resources)

/-! ## Shader program and pipeline layout -/

structure ShaderProgram where
  resources : List ShaderResource
  shader_sets : List (Nat × List ShaderResource)
  deriving DecidableEq

/-- `ShaderProgram::get_resources(type)`: the program's resources of the
given kind. -/
def ShaderProgram.get_resources (p : ShaderProgram) (t : ShaderResourceType) :
    List ShaderResource :=
  p.resources.filter (fun r => r.type == t)

structure PipelineLayoutState where
  descriptor_set_layouts : List (Nat × DescriptorSetLayoutState)
  shader_program : ShaderProgram
  deriving DecidableEq

/-- The descriptor-set-layout loop of the `PipelineLayout` constructor
(pipeline_layout.cpp lines 32-35): one `DescriptorSetLayout` per shader
set, `emplace`d into the map keyed by set index. -/
def set_layouts_loop (m : List (Nat × DescriptorSetLayoutState))
    (sets : List (Nat × List ShaderResource)) (use_dynamic_resources : Bool) :
    Except String (List (Nat × DescriptorSetLayoutState)) :=
  match sets with
  | [] => .ok m
  | (set_index, resource_set) :: rest =>
    match DescriptorSetLayout_construct resource_set use_dynamic_resources with
    | .error e => .error e
    | .ok layout => set_layouts_loop (emplace m set_index layout) rest use_dynamic_resources

/-- `PipelineLayout::PipelineLayout` (pipeline_layout.cpp lines 27-58),
restricted to its observable state (push-constant ranges are re-derived
from the stored shader program on query, as in the source). -/
def PipelineLayout_construct (prog : ShaderProgram) (use_dynamic_resources : Bool) :
    Except String PipelineLayoutState :=
  match set_layouts_loop [] prog.shader_sets use_dynamic_resources with
  | .error e => .error e
  | .ok m => .ok ⟨m, prog⟩

/-- `PipelineLayout::has_descriptor_set_layout` (pipeline_layout.cpp lines
88-91): a size comparison, not a key lookup. -/
def has_descriptor_set_layout (pl : PipelineLayoutState) (set_index : Nat) : Bool :=
  decide (set_index < pl.descriptor_set_layouts.length)

/-- `PipelineLayout::get_descriptor_set_layout` (pipeline_layout.cpp lines
93-96): `std::map::at`, which throws `std::out_of_range` when the key is
absent. -/
def get_descriptor_set_layout (pl : PipelineLayoutState) (set_index : Nat) :
    Except String DescriptorSetLayoutState :=
  match pl.descriptor_set_layouts.lookup set_index with
  | some layout => .ok layout
  | none => .error "std::out_of_range: map::at"

/-- `PipelineLayout::get_push_constant_range_stage` (pipeline_layout.cpp
lines 98-110).  The two sums are `uint32_t` additions, so they wrap modulo
2^32; the comparisons themselves do not wrap. -/
def get_push_constant_range_stage (pl : PipelineLayoutState) (offset size : Nat) : Nat :=
  (pl.shader_program.get_resources .PushConstant).foldl
    (fun stages r =>
      if r.offset ≤ offset ∧ (offset + size) % 2 ^ 32 ≤ (r.offset + r.size) % 2 ^ 32 then
        stages ||| r.stages
      else stages)
    0

/-- Modelled from the spec: the byte interval [offset, offset+size) is
fully contained in the range's interval, in exact (non-wrapping)
arithmetic.  Spec-side definition for the refinement claim about
`get_push_constant_range_stage`. -/
def contains_query (r : ShaderResource) (offset size : Nat) : Bool :=
  decide (r.offset ≤ offset) && decide (offset + size ≤ r.offset + r.size)

/-- Modelled from the spec: the union of the stages of exactly those
stored ranges whose interval fully contains the queried interval. -/
def spec_stage_mask_for (ranges : List ShaderResource) (offset size : Nat) : Nat :=
  (ranges.filter (fun r => contains_query r offset size)).foldl
    (fun s r => s ||| r.stages) 0

/-- Every stored range's offset+size stays below 2^32 (no wrap). -/
def ranges_no_overflow (ranges : List ShaderResource) : Bool :=
  ranges.all (fun r => decide (r.offset + r.size < 2 ^ 32))

/-! ## Concrete inputs used by the claim theorems -/

def rs_dup : List ShaderResource :=
  [⟨"sampled_image", .ImageSampler, 0, 1, 0, 0, eVertex⟩,
   ⟨"uniform_buf", .BufferUniform, 0, 1, 0, 0, eFragment⟩]

def rs_shadow : List ShaderResource :=
  [⟨"img_x", .ImageSampler, 0, 1, 0, 0, eVertex⟩,
   ⟨"buf_y", .BufferUniform, 0, 1, 0, 0, eFragment⟩,
   ⟨"buf_y", .BufferUniform, 1, 1, 0, 0, eFragment⟩]

def rs_single : List ShaderResource :=
  [⟨"single_buf", .BufferUniform, 0, 1, 0, 0, eVertex⟩]

def st_single : DescriptorSetLayoutState :=
  ⟨[⟨0, 1, .eUniformBuffer, eVertex⟩],
   [(0, ⟨0, 1, .eUniformBuffer, eVertex⟩)],
   [("single_buf", 0)]⟩

def res_set0 : List ShaderResource :=
  [⟨"set0_buf", .BufferUniform, 0, 1, 0, 0, eVertex⟩]

def res_set2 : List ShaderResource :=
  [⟨"set2_buf", .BufferUniform, 0, 1, 0, 0, eFragment⟩]

/-- A shader program whose descriptor sets have indices 0 and 2 only (set
1 is empty, hence absent). -/
def prog_sparse : ShaderProgram :=
  ⟨res_set0 ++ res_set2, [(0, res_set0), (2, res_set2)]⟩

def pc_wrap : ShaderResource := ⟨"push_const_a", .PushConstant, 0, 0, 0, 4, eVertex⟩

def pl_wrap : PipelineLayoutState := ⟨[], ⟨[pc_wrap], []⟩⟩

def pc_big : ShaderResource := ⟨"push_const_b", .PushConstant, 0, 0, 0, 8, eFragment⟩

def pl_big : PipelineLayoutState := ⟨[], ⟨[pc_big], []⟩⟩

def pl_small : PipelineLayoutState :=
  ⟨[], ⟨[⟨"push_const_w", .PushConstant, 0, 0, 4, 8, eVertex⟩], []⟩⟩

end vkb

namespace vkb

/-! ## Claim theorems: layout-transition policy and descriptor-type mapping -/

/-- C2 counterexample: `src_access_mask` is NOT a function of `old_layout`
alone: with `old_layout = eUndefined`, the two new layouts
`eShaderReadOnlyOptimal` and `eTransferDstOptimal` yield different source
access masks (the former triggers the backfill). -/
theorem src_mask_depends_on_new_layout :
    (derive_access_masks .eUndefined .eShaderReadOnlyOptimal).srcAccessMask ≠
      (derive_access_masks .eUndefined .eTransferDstOptimal).srcAccessMask := by
  decide

/-- C2 (amended): the source access mask equals the fixed old-layout table
(Undefined→none, Preinitialized→host-write, ColorAttachmentOptimal→
color-attachment-write, DepthStencilAttachmentOptimal→depth-stencil-attachment-
write, TransferSrcOptimal→transfer-read, TransferDstOptimal→transfer-write,
ShaderReadOnlyOptimal→shader-read, any other→none) in every case EXCEPT when
`new_layout = eShaderReadOnlyOptimal` and the table produced an empty mask,
in which case it is backfilled to host-write | transfer-write.  In
particular, for any fixed `old_layout` all new layouts other than
`eShaderReadOnlyOptimal` give the same source mask. -/
theorem src_mask_from_old_layout_except_backfill (old_layout new_layout : ImageLayout) :
    (derive_access_masks old_layout new_layout).srcAccessMask =
      (if new_layout = .eShaderReadOnlyOptimal ∧ src_access_mask_table old_layout = 0
        then eHostWrite ||| eTransferWrite
        else src_access_mask_table old_layout) ∧
    src_access_mask_table .eUndefined = 0 ∧
    src_access_mask_table .ePreinitialized = eHostWrite ∧
    src_access_mask_table .eColorAttachmentOptimal = eColorAttachmentWrite ∧
    src_access_mask_table .eDepthStencilAttachmentOptimal = eDepthStencilAttachmentWrite ∧
    src_access_mask_table .eTransferSrcOptimal = eTransferRead ∧
    src_access_mask_table .eTransferDstOptimal = eTransferWrite ∧
    src_access_mask_table .eShaderReadOnlyOptimal = eShaderRead ∧
    src_access_mask_table .eGeneral = 0 ∧
    src_access_mask_table .ePresentSrcKHR = 0 := by
  cases old_layout <;> cases new_layout <;> decide

/-- C4: `derive_access_masks (eUndefined, eShaderReadOnlyOptimal)` produces
`src = HostWrite ||| TransferWrite` (the empty table mask is backfilled) and
`dst = ShaderRead`; and in general, whenever the new layout is
`eShaderReadOnlyOptimal`, the source mask is the backfill value exactly when
the old-layout table gave the empty mask (and the table value otherwise),
while the destination mask is always `ShaderRead`. -/
theorem shader_read_only_backfill (old_layout : ImageLayout) :
    derive_access_masks .eUndefined .eShaderReadOnlyOptimal =
      ⟨eHostWrite ||| eTransferWrite, eShaderRead⟩ ∧
    (derive_access_masks old_layout .eShaderReadOnlyOptimal).srcAccessMask =
      (if src_access_mask_table old_layout = 0
        then eHostWrite ||| eTransferWrite
        else src_access_mask_table old_layout) ∧
    (derive_access_masks old_layout .eShaderReadOnlyOptimal).dstAccessMask = eShaderRead := by
  cases old_layout <;> decide

/-- C7: the descriptor-type mapping consults the `dynamic` flag only for
`BufferUniform` (→ `eUniformBufferDynamic`) and `BufferStorage`
(→ `eStorageBufferDynamic`); every other resource kind maps identically
under `dynamic = true` and `dynamic = false`. -/
theorem dynamic_flag_only_for_buffers (t : ShaderResourceType) :
    find_descriptor_type t true =
      (if t = .BufferUniform then .ok .eUniformBufferDynamic
       else if t = .BufferStorage then .ok .eStorageBufferDynamic
       else find_descriptor_type t false) := by
  cases t <;> rfl

/-- C6: across the whole closed format enumeration, `get_bits_per_pixel`
returns a non-negative value, except for the single `eUndefined` sentinel,
where it returns exactly -1.  (The embedding is a total function, matching
the never-throwing total C++ switch.) -/
theorem bits_per_pixel_nonneg_except_undefined (f : Format) :
    if f = .eUndefined then get_bits_per_pixel f = -1
    else 0 ≤ get_bits_per_pixel f := by
  cases f <;> decide

/-- C1 (code bug, evaluated at the failing input): two resources from
different stages sharing binding 0 yield TWO entries in the ordered
binding list (not one merged entry), and the lookup entry for binding 0
carries only the first resource's stage set `eVertex`, not the OR
`eVertex ||| eFragment` the merge invariant requires. -/
theorem duplicate_binding_not_merged :
    (DescriptorSetLayout_construct rs_dup false).toOption.map
        (fun st => (st.bindings.length, get_layout_binding st 0)) =
      some (2, some ⟨0, 1, .eCombinedImageSampler, eVertex⟩) ∧
    eVertex ||| eFragment ≠ eVertex := by
  decide

/-- C9 counterexample: in `rs_shadow` the two resources named "buf_y"
have earliest occurrence at index 1 (a `BufferUniform` at binding 0 with
stages `eFragment`, whose derived entry is the `eUniformBuffer` one), yet
the name lookup returns the `eCombinedImageSampler` entry of the index-0
resource "img_x", because the name resolves to binding 0 and the binding
lookup kept the first resource with that binding. -/
theorem name_lookup_not_earliest_named :
    (DescriptorSetLayout_construct rs_shadow false).toOption.map
        (fun st => get_layout_binding_by_name st "buf_y") =
      some (some ⟨0, 1, .eCombinedImageSampler, eVertex⟩) ∧
    entry_of ⟨"buf_y", .BufferUniform, 0, 1, 0, 0, eFragment⟩ false =
      some ⟨0, 1, .eUniformBuffer, eFragment⟩ ∧
    (⟨0, 1, DescriptorType.eCombinedImageSampler, eVertex⟩ : DescriptorSetLayoutBinding) ≠
      ⟨0, 1, .eUniformBuffer, eFragment⟩ := by
  decide

/-- C10: with the stored range [0, 4) and the query (offset 4, size
2^32 - 4), whose mathematical offset+size is 2^32, the wrapped 32-bit sum
is 0, so the containment test passes and the range's stages are returned,
although the queried interval is not mathematically contained in the
range. -/
theorem wrap_includes_noncontained_interval :
    get_push_constant_range_stage pl_wrap 4 4294967292 = eVertex ∧
    eVertex ≠ 0 ∧
    2 ^ 32 ≤ 4 + 4294967292 ∧
    ¬ (4 + 4294967292 ≤ pc_wrap.offset + pc_wrap.size) := by
  decide

/-- C3 counterexample: with the stored range [0, 8) and the query (offset
8, size 2^32 - 8), no stored range fully contains the queried interval
(the spec-side union of containing ranges is empty), yet
`get_push_constant_range_stage` returns a non-empty stage set because the
32-bit sums wrap. -/
theorem stage_mask_not_containment_union :
    spec_stage_mask_for (pl_big.shader_program.get_resources .PushConstant) 8 4294967288 = 0 ∧
    get_push_constant_range_stage pl_big 8 4294967288 = eFragment ∧
    eFragment ≠ 0 := by
  decide

/-! ## Helper lemmas -/

theorem opt_or_none {α : Type} (x : Option α) : x.or none = x := by
  cases x <;> rfl

theorem lookup_emplace {α β : Type} [BEq α] [LawfulBEq α]
    (m : List (α × β)) (k k' : α) (v : β) :
    (emplace m k v).lookup k' =
      if k' == k then (m.lookup k).or (some v) else m.lookup k' := by
  unfold emplace
  rcases hk : m.lookup k with _ | v0
  · simp only [hk, Option.isSome_none, Bool.false_eq_true, if_false, List.lookup]
    by_cases h : k' == k <;> simp [h, hk, Option.or]
  · simp only [hk, Option.isSome_some, if_true]
    by_cases h : k' == k
    · have : k' = k := eq_of_beq h
      subst this
      simp [h, hk, Option.or]
    · simp [h]

theorem lookup_isSome_iff_mem {β : Type} (m : List (Nat × β)) (k : Nat) :
    (m.lookup k).isSome = true ↔ k ∈ m.map Prod.fst := by
  induction m with
  | nil => simp [List.lookup]
  | cons p rest ih =>
    obtain ⟨k', v⟩ := p
    by_cases h : k = k'
    · subst h
      simp [List.lookup]
    · have hb : (k == k') = false := by simp [h]
      simp [List.lookup, hb, ih, h]

theorem fold_stage_mask (l : List ShaderResource) (offset size : Nat)
    (h1 : offset + size < 2 ^ 32) (h2 : ranges_no_overflow l = true) (acc : Nat) :
    l.foldl
      (fun stages r =>
        if r.offset ≤ offset ∧ (offset + size) % 2 ^ 32 ≤ (r.offset + r.size) % 2 ^ 32 then
          stages ||| r.stages
        else stages) acc =
      (l.filter (fun r => contains_query r offset size)).foldl
        (fun s r => s ||| r.stages) acc := by
  induction l generalizing acc with
  | nil => rfl
  | cons r rest ih =>
    simp only [ranges_no_overflow, List.all_cons, Bool.and_eq_true, decide_eq_true_eq] at h2
    obtain ⟨hr, hrest⟩ := h2
    have hrest' : ranges_no_overflow rest = true := by
      simpa [ranges_no_overflow] using hrest
    have hcond : (r.offset ≤ offset ∧
        (offset + size) % 2 ^ 32 ≤ (r.offset + r.size) % 2 ^ 32) ↔
        (r.offset ≤ offset ∧ offset + size ≤ r.offset + r.size) := by
      rw [Nat.mod_eq_of_lt h1, Nat.mod_eq_of_lt hr]
    simp only [List.foldl_cons, List.filter_cons]
    by_cases hc : r.offset ≤ offset ∧ offset + size ≤ r.offset + r.size
    · have hq : contains_query r offset size = true := by
        simp [contains_query, hc.1, hc.2]
      rw [if_pos (hcond.mpr hc)]
      simp only [hq, if_true, List.foldl_cons]
      exact ih hrest' (acc ||| r.stages)
    · have hq : contains_query r offset size = false := by
        rw [Decidable.not_and_iff_or_not] at hc
        rcases hc with hc | hc <;> simp [contains_query, hc]
      rw [if_neg (fun hh => hc (hcond.mp hh))]
      simp only [hq, Bool.false_eq_true, if_false]
      exact ih hrest' acc

theorem build_loop_spec (rs : List ShaderResource) (d : Bool) :
    ∀ st0 st, build_loop st0 rs d = .ok st →
      st.bindings = st0.bindings ++ constructed_bindings rs d ∧
      (∀ b, st.bindings_lookup.lookup b =
        (st0.bindings_lookup.lookup b).or (first_binding_entry rs d b)) ∧
      (∀ n, st.resources_lookup.lookup n =
        (st0.resources_lookup.lookup n).or (first_name_binding rs n)) := by
  induction rs with
  | nil =>
    intro st0 st h
    simp only [build_loop, Except.ok.injEq] at h
    subst h
    refine ⟨by simp [constructed_bindings], fun b => ?_, fun n => ?_⟩
    · simp [first_binding_entry, opt_or_none]
    · simp [first_name_binding, opt_or_none]
  | cons r rest ih =>
    intro st0 st h
    simp only [build_loop] at h
    by_cases hskip : skips_binding r.type = true
    · rw [if_pos hskip] at h
      obtain ⟨hb, hl, hn⟩ := ih st0 st h
      refine ⟨?_, fun b => ?_, fun n => ?_⟩
      · rw [hb]
        simp [constructed_bindings, List.filterMap_cons, hskip]
      · rw [hl b]
        simp [first_binding_entry, List.find?_cons, hskip]
      · rw [hn n]
        simp [first_name_binding, List.find?_cons, hskip]
    · rw [if_neg hskip] at h
      rcases hfd : find_descriptor_type r.type d with e | dt
      · rw [hfd] at h
        exact absurd h (by simp)
      · rw [hfd] at h
        obtain ⟨hb, hl, hn⟩ := ih _ st h
        have hentry : entry_of r d = some (layout_binding_of r dt) := by
          simp [entry_of, hfd, Except.toOption]
        refine ⟨?_, fun b => ?_, fun n => ?_⟩
        · rw [hb]
          simp [constructed_bindings, List.filterMap_cons, hskip, hentry, List.append_assoc]
        · rw [hl b, lookup_emplace]
          by_cases hbb : b = r.binding
          · rw [hbb]
            have hfind : first_binding_entry (r :: rest) d r.binding =
                some (layout_binding_of r dt) := by
              simp [first_binding_entry, List.find?_cons, hskip, hentry]
            rw [if_pos (beq_self_eq_true r.binding), hfind]
            cases st0.bindings_lookup.lookup r.binding <;> simp [Option.or]
          · have hbeq : ¬ ((b == r.binding) = true) := by simp [hbb]
            have hbeq' : (r.binding == b) = false := by simp [Ne.symm hbb]
            have hfind : first_binding_entry (r :: rest) d b =
                first_binding_entry rest d b := by
              simp [first_binding_entry, List.find?_cons, hskip, hbeq']
            rw [if_neg hbeq, hfind]
        · rw [hn n, lookup_emplace]
          by_cases hnn : n = r.name
          · rw [hnn]
            have hfind : first_name_binding (r :: rest) r.name = some r.binding := by
              simp [first_name_binding, List.find?_cons, hskip]
            rw [if_pos (beq_self_eq_true r.name), hfind]
            cases st0.resources_lookup.lookup r.name <;> simp [Option.or]
          · have hbeq : ¬ ((n == r.name) = true) := by simp [hnn]
            have hbeq' : (r.name == n) = false := by simp [Ne.symm hnn]
            have hfind : first_name_binding (r :: rest) n =
                first_name_binding rest n := by
              simp [first_name_binding, List.find?_cons, hskip, hbeq']
            rw [if_neg hbeq, hfind]

/-! ## Remaining claim theorems -/

/-- C3 (amended): when neither the query's offset+size nor any stored
range's offset+size wraps 32-bit arithmetic, `get_push_constant_range_stage`
returns exactly the union, over all stored push-constant ranges, of the
stages of those ranges whose interval fully contains [offset, offset+size)
(so in particular the empty set when no range contains it, and exactly the
declaring range's stages when exactly one does). -/
theorem stage_mask_is_containment_union (pl : PipelineLayoutState) (offset size : Nat)
    (h1 : offset + size < 2 ^ 32)
    (h2 : ranges_no_overflow (pl.shader_program.get_resources .PushConstant) = true) :
    get_push_constant_range_stage pl offset size =
      spec_stage_mask_for (pl.shader_program.get_resources .PushConstant) offset size := by
  unfold get_push_constant_range_stage spec_stage_mask_for
  exact fold_stage_mask _ offset size h1 h2 0

theorem stage_mask_is_containment_union_witness :
    (4 + 4 < 2 ^ 32) ∧
    ranges_no_overflow (pl_small.shader_program.get_resources .PushConstant) = true ∧
    get_push_constant_range_stage pl_small 4 4 =
      spec_stage_mask_for (pl_small.shader_program.get_resources .PushConstant) 4 4 :=
  ⟨by decide, by decide,
   stage_mask_is_containment_union pl_small 4 4 (by decide) (by decide)⟩

/-- C9 (amended): the binding lookup returns the entry derived from the
earliest slot-occupying resource with that binding value; the name lookup
resolves the name to the binding registered by the earliest slot-occupying
resource with that name and then goes through the binding lookup (so an
even earlier resource sharing that binding supplies the returned entry);
later duplicates are appended to the ordered entry list but never replace
a lookup-table entry. -/
theorem lookup_first_resource_wins (rs : List ShaderResource) (d : Bool)
    (st : DescriptorSetLayoutState) (b : Nat) (n : String)
    (h : DescriptorSetLayout_construct rs d = .ok st) :
    get_layout_binding st b = first_binding_entry rs d b ∧
    st.resources_lookup.lookup n = first_name_binding rs n ∧
    st.bindings = constructed_bindings rs d ∧
    get_layout_binding_by_name st n =
      (first_name_binding rs n).bind (get_layout_binding st) := by
  obtain ⟨hb, hl, hn⟩ := build_loop_spec rs d ⟨[], [], []⟩ st h
  have h1 : get_layout_binding st b = first_binding_entry rs d b := by
    have hx := hl b
    simpa [get_layout_binding, List.lookup, Option.or] using hx
  have h2 : st.resources_lookup.lookup n = first_name_binding rs n := by
    have hx := hn n
    simpa [List.lookup, Option.or] using hx
  refine ⟨h1, h2, by simpa using hb, ?_⟩
  simp only [get_layout_binding_by_name, h2]
  cases first_name_binding rs n <;> simp [Option.bind]

theorem lookup_first_resource_wins_witness :
    DescriptorSetLayout_construct rs_single false = .ok st_single ∧
    (get_layout_binding st_single 0 = first_binding_entry rs_single false 0 ∧
     st_single.resources_lookup.lookup "single_buf" =
       first_name_binding rs_single "single_buf" ∧
     st_single.bindings = constructed_bindings rs_single false ∧
     get_layout_binding_by_name st_single "single_buf" =
       (first_name_binding rs_single "single_buf").bind (get_layout_binding st_single)) :=
  ⟨rfl, lookup_first_resource_wins rs_single false st_single 0 "single_buf" rfl⟩

/-- C5: `has_descriptor_set_layout` is a size comparison — it returns true
exactly when the index is strictly below the number of stored set layouts —
and the pipeline layout built from `prog_sparse` (descriptor sets at
indices 0 and 2 only) reports `has_descriptor_set_layout 0 = true`. -/
theorem has_set_is_size_comparison (pl : PipelineLayoutState) (set_index : Nat) :
    (has_descriptor_set_layout pl set_index = true ↔
      set_index < pl.descriptor_set_layouts.length) ∧
    (PipelineLayout_construct prog_sparse false).toOption.map
        (fun pl0 => has_descriptor_set_layout pl0 0) = some true := by
  constructor
  · simp [has_descriptor_set_layout]
  · decide

/-- C8: `get_descriptor_set_layout` succeeds exactly when the index is one
of the stored set-index keys; with binding layouts stored for sets 0 and 2
only, `has_descriptor_set_layout 1` is true (1 < 2 stored layouts) while
`get_descriptor_set_layout 1` fails with the out-of-range error. -/
theorem get_set_succeeds_iff_stored_key (pl : PipelineLayoutState) (set_index : Nat) :
    ((get_descriptor_set_layout pl set_index).toOption.isSome = true ↔
      set_index ∈ pl.descriptor_set_layouts.map Prod.fst) ∧
    (PipelineLayout_construct prog_sparse false).toOption.map
        (fun pl0 => (has_descriptor_set_layout pl0 1,
                     (get_descriptor_set_layout pl0 1).toOption.isSome)) =
      some (true, false) := by
  constructor
  · rw [← lookup_isSome_iff_mem]
    unfold get_descriptor_set_layout
    cases pl.descriptor_set_layouts.lookup set_index <;> simp [Except.toOption]
  · decide

end vkb
